import Mathlib

/-!
Shallow embedding of `src/Grundig_PN200.py` (class `GrundigPN200`), a serial
driver for the Grundig PN200 dual-channel power supply.

Modelling choices:
* Python `float` values are modelled by the structure `PyFloat`, which carries
  the string produced by Python's float-to-string conversion (`str`/`repr`,
  the shortest round-tripping decimal).  An f-string interpolation
  `f'VSET {float(v)}'` of a stored float `v` yields exactly `"VSET " ++ v.str`,
  since `float(v)` is the identity on floats.  The class-attribute defaults
  `0.0` are modelled as `PyFloat.mk "0.0"` because `str(0.0) = "0.0"`.
* The serial transport is external.  Each operation returns the list of
  observable I/O events it performs (bytes written, the settle sleep, the
  line read, close/open attempts) together with an `Except` result mirroring
  Python's raised exceptions.  The bytes a `readline` call returns are an
  input parameter `rx` (the environment's choice), and whether an open or
  close attempt of a port succeeds is likewise an input.
* `.encode('ascii')` / `.decode('ascii')` raise on non-ASCII data; they are
  modelled by `asciiEncode` / `asciiDecode` returning `none` in that case.
* Python attribute fields that may hold a float or `None` become
  `Option PyFloat`; the `serial` slot holding either `None` or an open
  `Serial` object becomes `Option Nat`, the `Nat` being an opaque transport
  identity chosen by the environment at open time.
-/

/-- Model of a Python `float` value: the string its `str`/`repr` produces. -/
structure PyFloat where
  str : String
deriving DecidableEq, Repr

/-- Exceptions the Python code can raise. -/
inductive PyError where
  /-- `RuntimeError("Serial port is not open")` raised by `send_cmd`,
  `set_remote` and `set_local` (the spec's `NotConnectedError`). -/
  | runtimeError (msg : String)
  /-- `serial.SerialException` raised by `serial.Serial(...)` when the port
  cannot be opened (the spec's `TransportError`). -/
  | serialException
  /-- `UnicodeEncodeError` / `UnicodeDecodeError` from `.encode('ascii')` /
  `.decode('ascii')` on non-ASCII data. -/
  | unicodeError
deriving DecidableEq, Repr

/-- Observable I/O events of the driver, in program order. -/
inductive Event where
  /-- `self.serial.write(bytes)`: the exact bytes written to the transport. -/
  | write (bytes : List Nat)
  /-- `time.sleep(0.1)`: the fixed 100 ms settle delay. -/
  | sleep100
  /-- `self.serial.readline()`: one line read from the transport. -/
  | readlineEv
  /-- `self.serial.close()` attempted on transport `t`; `failed` records
  whether the close raised (the exception is swallowed either way). -/
  | closeAttempt (t : Nat) (failed : Bool)
  /-- `serial.Serial(comport, baudrate, timeout=1)` succeeded, yielding
  transport `t`. -/
  | openPort (comport : String) (baudrate : Nat) (t : Nat)
  /-- `print(ser)` on the freshly opened transport `t`. -/
  | printSerial (t : Nat)
deriving DecidableEq, Repr

/-- The mutable state of a `GrundigPN200` instance: the `serial` slot and the
six per-channel attributes (class-attribute defaults in `initialState`). -/
structure GrundigPN200 where
  serial : Option Nat
  channel_a_voltage : Option PyFloat
  channel_a_current : Option PyFloat
  channel_a_state : Bool
  channel_b_voltage : Option PyFloat
  channel_b_current : Option PyFloat
  channel_b_state : Bool
deriving DecidableEq, Repr

/-- The class-attribute defaults of `GrundigPN200` (source lines 19-26):
no transport, both channels at voltage `0.0`, current `0.0`, disabled. -/
def initialState : GrundigPN200 :=
  { serial := none
    channel_a_voltage := some (PyFloat.mk "0.0")
    channel_a_current := some (PyFloat.mk "0.0")
    channel_a_state := false
    channel_b_voltage := some (PyFloat.mk "0.0")
    channel_b_current := some (PyFloat.mk "0.0")
    channel_b_state := false }

/-- The code points of a string, as natural numbers. -/
def strBytes (s : String) : List Nat :=
  s.data.map Char.toNat

/-- Python `.encode('ascii')`: the bytes of the string if every character is
ASCII, otherwise a `UnicodeEncodeError` (modelled as `none`). -/
def asciiEncode (s : String) : Option (List Nat) :=
  if s.data.all (fun c => c.toNat < 128) then some (strBytes s) else none

/-- Python `bytes.decode('ascii')`: the string spelled by the bytes if every
byte is below 128, otherwise a `UnicodeDecodeError` (modelled as `none`). -/
def asciiDecode (bs : List Nat) : Option String :=
  if bs.all (fun b => b < 128) then some (String.mk (bs.map Char.ofNat)) else none

/-- A character Python's `str.strip()` removes (ASCII whitespace). -/
def isPyWhitespace (c : Char) : Bool :=
  c = ' ' || c = '\t' || c = '\n' || c = '\r' || c = '\x0B' || c = '\x0C'

/-- Python `str.strip()`: drop leading and trailing whitespace. -/
def pyStrip (s : String) : String :=
  String.mk (((s.data.dropWhile isPyWhitespace).reverse.dropWhile isPyWhitespace).reverse)

/-- `send_cmd` (source lines 66-89): raise `RuntimeError` if `self.serial` is
`None`; otherwise write the ASCII encoding of `cmd ++ "\n"`, sleep 100 ms,
read one line (`rx` is what the transport returns), decode it as ASCII,
strip it and return it.  The state is not modified. -/
def send_cmd (self : GrundigPN200) (cmd : String) (rx : List Nat) :
    List Event × Except PyError String :=
  match self.serial with
  | none => ([], Except.error (PyError.runtimeError "Serial port is not open"))
  | some _ =>
    match asciiEncode (cmd ++ "\n") with
    | none => ([], Except.error PyError.unicodeError)
    | some bs =>
      match asciiDecode rx with
      | none => ([Event.write bs, Event.sleep100, Event.readlineEv],
                 Except.error PyError.unicodeError)
      | some s => ([Event.write bs, Event.sleep100, Event.readlineEv],
                   Except.ok (pyStrip s))

/-- `set_remote` (source lines 91-103): raise `RuntimeError` if no transport,
else write the single byte `0x09` (no newline, no read). -/
def set_remote (self : GrundigPN200) : List Event × Except PyError Unit :=
  match self.serial with
  | none => ([], Except.error (PyError.runtimeError "Serial port is not open"))
  | some _ => ([Event.write [0x09]], Except.ok ())

/-- `set_local` (source lines 105-117): raise `RuntimeError` if no transport,
else write the single byte `0x01` (no newline, no read). -/
def set_local (self : GrundigPN200) : List Event × Except PyError Unit :=
  match self.serial with
  | none => ([], Except.error (PyError.runtimeError "Serial port is not open"))
  | some _ => ([Event.write [0x01]], Except.ok ())

/-- `set_independent_mode` (source lines 119-125): call
`self.send_cmd('OPER_IND')` and fall off the end of the function, i.e.
return Python `None` (modelled as `Unit`) — the response of `send_cmd`
is discarded. -/
def set_independent_mode (self : GrundigPN200) (rx : List Nat) :
    List Event × Except PyError Unit :=
  let r := send_cmd self "OPER_IND" rx
  (r.1, r.2.map (fun _ => ()))

/-- `connect_to` (source lines 43-64): if a transport is stored, attempt to
close it, swallowing any exception (`closeFails` is whether the close
raised); then open `serial.Serial(comport, baudrate, timeout=1)` — the
environment's `openResult` says whether that raises `SerialException` or
yields a new transport — print it and store it in `self.serial`. -/
def connect_to (self : GrundigPN200) (comport : String) (baudrate : Nat)
    (closeFails : Bool) (openResult : Except Unit Nat) :
    List Event × Except PyError GrundigPN200 :=
  let closeEvs : List Event :=
    match self.serial with
    | some t => [Event.closeAttempt t closeFails]
    | none => []
  match openResult with
  | Except.error _ => (closeEvs, Except.error PyError.serialException)
  | Except.ok t =>
      (closeEvs ++ [Event.openPort comport baudrate t, Event.printSerial t],
       Except.ok { self with serial := some t })

/-- `__init__` (source lines 28-41): `self.set_remote()`, then
`self.set_independent_mode()`, then `self.connect_to(comport, baudrate)`,
starting from the class-attribute defaults.  Any exception aborts the
sequence and propagates. -/
def grundig_init (comport : String) (baudrate : Nat)
    (closeFails : Bool) (openResult : Except Unit Nat) (rxInd : List Nat) :
    List Event × Except PyError GrundigPN200 :=
  let self := initialState
  let r1 := set_remote self
  match r1.2 with
  | Except.error e => (r1.1, Except.error e)
  | Except.ok _ =>
    let r2 := set_independent_mode self rxInd
    match r2.2 with
    | Except.error e => (r1.1 ++ r2.1, Except.error e)
    | Except.ok _ =>
      let r3 := connect_to self comport baudrate closeFails openResult
      (r1.1 ++ r2.1 ++ r3.1, r3.2)

/-- `update_chnel_a` (source lines 128-154): if channel A is off, send
`SEL_A; VSET 0;`; otherwise build `['SEL_A']`, append `VSET <v>` when the
stored voltage is not `None` and `ISET <c>` when the stored current is not
`None`, and send `'; '.join(parts) + ';'` (just `SEL_A;` when nothing was
appended). -/
def update_chnel_a (self : GrundigPN200) (rx : List Nat) :
    List Event × Except PyError String :=
  if !self.channel_a_state then
    send_cmd self "SEL_A; VSET 0;" rx
  else
    let parts : List String := ["SEL_A"]
    let parts : List String :=
      match self.channel_a_voltage with
      | some v => parts ++ ["VSET " ++ v.str]
      | none => parts
    let parts : List String :=
      match self.channel_a_current with
      | some c => parts ++ ["ISET " ++ c.str]
      | none => parts
    let cmd : String :=
      if parts.length = 1 then "SEL_A;"
      else String.intercalate "; " parts ++ ";"
    send_cmd self cmd rx

/-- `update_chnel_b` (source lines 156-177): the mirror of `update_chnel_a`
for channel B. -/
def update_chnel_b (self : GrundigPN200) (rx : List Nat) :
    List Event × Except PyError String :=
  if !self.channel_b_state then
    send_cmd self "SEL_B; VSET 0;" rx
  else
    let parts : List String := ["SEL_B"]
    let parts : List String :=
      match self.channel_b_voltage with
      | some v => parts ++ ["VSET " ++ v.str]
      | none => parts
    let parts : List String :=
      match self.channel_b_current with
      | some c => parts ++ ["ISET " ++ c.str]
      | none => parts
    let cmd : String :=
      if parts.length = 1 then "SEL_B;"
      else String.intercalate "; " parts ++ ";"
    send_cmd self cmd rx

/-- The state effect of `set_channel_a` (source lines 191-192): overwrite the
stored voltage and current of channel A unconditionally. -/
def set_channel_a_store (self : GrundigPN200) (voltage current : Option PyFloat) :
    GrundigPN200 :=
  { self with channel_a_voltage := voltage, channel_a_current := current }

/-- The state effect of `set_channel_b` (source lines 201-202). -/
def set_channel_b_store (self : GrundigPN200) (voltage current : Option PyFloat) :
    GrundigPN200 :=
  { self with channel_b_voltage := voltage, channel_b_current := current }

/-- `set_channel_a` (source lines 180-193): overwrite the stored voltage and
current, then `update_chnel_a`.  Returns the new state with the response. -/
def set_channel_a (self : GrundigPN200) (voltage current : Option PyFloat)
    (rx : List Nat) : List Event × Except PyError (GrundigPN200 × String) :=
  let self := set_channel_a_store self voltage current
  let r := update_chnel_a self rx
  (r.1, r.2.map (fun resp => (self, resp)))

/-- `set_channel_b` (source lines 195-203). -/
def set_channel_b (self : GrundigPN200) (voltage current : Option PyFloat)
    (rx : List Nat) : List Event × Except PyError (GrundigPN200 × String) :=
  let self := set_channel_b_store self voltage current
  let r := update_chnel_b self rx
  (r.1, r.2.map (fun resp => (self, resp)))

/-- `channel_a_on` (source lines 205-212): set `channel_a_state := True`,
then `update_chnel_a`. -/
def channel_a_on (self : GrundigPN200) (rx : List Nat) :
    List Event × Except PyError (GrundigPN200 × String) :=
  let self := { self with channel_a_state := true }
  let r := update_chnel_a self rx
  (r.1, r.2.map (fun resp => (self, resp)))

/-- `channel_a_off` (source lines 214-221): set `channel_a_state := False`,
then `update_chnel_a`. -/
def channel_a_off (self : GrundigPN200) (rx : List Nat) :
    List Event × Except PyError (GrundigPN200 × String) :=
  let self := { self with channel_a_state := false }
  let r := update_chnel_a self rx
  (r.1, r.2.map (fun resp => (self, resp)))

/-- `channel_b_on` (source lines 223-226). -/
def channel_b_on (self : GrundigPN200) (rx : List Nat) :
    List Event × Except PyError (GrundigPN200 × String) :=
  let self := { self with channel_b_state := true }
  let r := update_chnel_b self rx
  (r.1, r.2.map (fun resp => (self, resp)))

/-- `channel_b_off` (source lines 228-231). -/
def channel_b_off (self : GrundigPN200) (rx : List Nat) :
    List Event × Except PyError (GrundigPN200 × String) :=
  let self := { self with channel_b_state := false }
  let r := update_chnel_b self rx
  (r.1, r.2.map (fun resp => (self, resp)))

/-- The command text the spec says `apply_channel` builds for an enabled
channel, following the claim's words: start from `SEL_<id>`, append
`VSET <voltage>` when the voltage is set and `ISET <current>` when the
current is set, join with `"; "` and add a trailing `";"`; when both are
unset the command is exactly `SEL_<id>;`. -/
def claimCommand (id : String) (voltage current : Option PyFloat) : String :=
  let parts : List String := ["SEL_" ++ id]
  let parts : List String :=
    match voltage with
    | some v => parts ++ ["VSET " ++ v.str]
    | none => parts
  let parts : List String :=
    match current with
    | some c => parts ++ ["ISET " ++ c.str]
    | none => parts
  match voltage, current with
  | none, none => "SEL_" ++ id ++ ";"
  | _, _ => String.intercalate "; " parts ++ ";"

/-- A connected state with both channels at the class defaults (off). -/
def connectedOff : GrundigPN200 := { initialState with serial := some 0 }

/-- Helper: what `send_cmd` does when a transport is active and both the
command and the received line are ASCII. -/
theorem send_cmd_connected (self : GrundigPN200) (cmd : String) (rx : List Nat)
    (t : Nat) (bs : List Nat) (s : String)
    (hconn : self.serial = some t) (henc : asciiEncode (cmd ++ "\n") = some bs)
    (hrx : asciiDecode rx = some s) :
    send_cmd self cmd rx =
      ([Event.write bs, Event.sleep100, Event.readlineEv], Except.ok (pyStrip s)) := by
  unfold send_cmd
  rw [hconn, henc, hrx]

/-- Helper: a disabled channel A always leads to the fixed zeroing command. -/
theorem update_chnel_a_off_cmd (self : GrundigPN200) (rx : List Nat)
    (h : self.channel_a_state = false) :
    update_chnel_a self rx = send_cmd self "SEL_A; VSET 0;" rx := by
  unfold update_chnel_a
  rw [h]
  rfl

/-- Helper: a disabled channel B always leads to the fixed zeroing command. -/
theorem update_chnel_b_off_cmd (self : GrundigPN200) (rx : List Nat)
    (h : self.channel_b_state = false) :
    update_chnel_b self rx = send_cmd self "SEL_B; VSET 0;" rx := by
  unfold update_chnel_b
  rw [h]
  rfl

/-- Helper: an enabled channel A sends exactly the command the spec text
describes (`claimCommand`). -/
theorem update_chnel_a_on_cmd (self : GrundigPN200) (rx : List Nat)
    (h : self.channel_a_state = true) :
    update_chnel_a self rx =
      send_cmd self (claimCommand "A" self.channel_a_voltage self.channel_a_current) rx := by
  unfold update_chnel_a claimCommand
  rw [h]
  cases self.channel_a_voltage <;> cases self.channel_a_current <;> rfl

/-- Helper: an enabled channel B sends exactly the command the spec text
describes (`claimCommand`). -/
theorem update_chnel_b_on_cmd (self : GrundigPN200) (rx : List Nat)
    (h : self.channel_b_state = true) :
    update_chnel_b self rx =
      send_cmd self (claimCommand "B" self.channel_b_voltage self.channel_b_current) rx := by
  unfold update_chnel_b claimCommand
  rw [h]
  cases self.channel_b_voltage <;> cases self.channel_b_current <;> rfl

/-- Applying a list of `set_channel_a` stores in order (the state part of a
sequence of `set_channel_a` calls). -/
def run_sets_a (st : GrundigPN200) (updates : List (Option PyFloat × Option PyFloat)) :
    GrundigPN200 :=
  updates.foldl (fun st p => set_channel_a_store st p.1 p.2) st

/-- Applying a list of `set_channel_b` stores in order. -/
def run_sets_b (st : GrundigPN200) (updates : List (Option PyFloat × Option PyFloat)) :
    GrundigPN200 :=
  updates.foldl (fun st p => set_channel_b_store st p.1 p.2) st

/-- Helper: `set_channel_a` stores never touch the `serial` slot. -/
theorem run_sets_a_serial (updates : List (Option PyFloat × Option PyFloat))
    (st : GrundigPN200) : (run_sets_a st updates).serial = st.serial := by
  induction updates generalizing st with
  | nil => rfl
  | cons p ps ih =>
    show (run_sets_a (set_channel_a_store st p.1 p.2) ps).serial = st.serial
    rw [ih]
    rfl

/-- Helper: `set_channel_b` stores never touch the `serial` slot. -/
theorem run_sets_b_serial (updates : List (Option PyFloat × Option PyFloat))
    (st : GrundigPN200) : (run_sets_b st updates).serial = st.serial := by
  induction updates generalizing st with
  | nil => rfl
  | cons p ps ih =>
    show (run_sets_b (set_channel_b_store st p.1 p.2) ps).serial = st.serial
    rw [ih]
    rfl

/-- C1: for every channel id in {A, B} and every stored voltage and current,
if the channel's enabled flag is false then `update_chnel_a`/`update_chnel_b`
sends exactly `"SEL_<id>; VSET 0;"` plus the newline added by `send_cmd`,
and returns the transport's response; the stored voltage and current do not
appear in the command (the state is universally quantified). -/
theorem C1_disabled_channel_sends_vset_zero
    (self : GrundigPN200) (t : Nat) (rx : List Nat) (s : String)
    (hconn : self.serial = some t) (hrx : asciiDecode rx = some s) :
    (self.channel_a_state = false →
       update_chnel_a self rx =
         ([Event.write (strBytes "SEL_A; VSET 0;\n"), Event.sleep100, Event.readlineEv],
          Except.ok (pyStrip s))) ∧
    (self.channel_b_state = false →
       update_chnel_b self rx =
         ([Event.write (strBytes "SEL_B; VSET 0;\n"), Event.sleep100, Event.readlineEv],
          Except.ok (pyStrip s))) := by
  constructor
  · intro h
    rw [update_chnel_a_off_cmd self rx h]
    exact send_cmd_connected self _ rx t _ s hconn rfl hrx
  · intro h
    rw [update_chnel_b_off_cmd self rx h]
    exact send_cmd_connected self _ rx t _ s hconn rfl hrx

/-- C1 witness: the disabled-channel command at a concrete connected state
with stored voltage 0.0 / current 0.0 and a device reply `b"OK\n"`. -/
theorem C1_disabled_channel_sends_vset_zero_witness :
    connectedOff.serial = some 0 ∧
    asciiDecode [79, 75, 10] = some "OK\n" ∧
    connectedOff.channel_a_state = false ∧
    update_chnel_a connectedOff [79, 75, 10] =
      ([Event.write (strBytes "SEL_A; VSET 0;\n"), Event.sleep100, Event.readlineEv],
       Except.ok (pyStrip "OK\n")) :=
  ⟨rfl, rfl, rfl,
   (C1_disabled_channel_sends_vset_zero connectedOff 0 [79, 75, 10] "OK\n" rfl rfl).1 rfl⟩

/-- C2: for every channel id in {A, B}, when the channel is enabled the
command sent is exactly the one described by the spec (`claimCommand`:
`SEL_<id>` plus `VSET`/`ISET` clauses for the set values, joined by `"; "`
with a trailing `";"`, bare `SEL_<id>;` when both are unset), plus the
newline added by `send_cmd`; in particular the claim's concrete examples
hold. -/
theorem C2_enabled_channel_command (self : GrundigPN200) (t : Nat) (rx : List Nat)
    (s : String) (bsA bsB : List Nat)
    (hconn : self.serial = some t) (hrx : asciiDecode rx = some s)
    (hA : asciiEncode
        (claimCommand "A" self.channel_a_voltage self.channel_a_current ++ "\n") = some bsA)
    (hB : asciiEncode
        (claimCommand "B" self.channel_b_voltage self.channel_b_current ++ "\n") = some bsB) :
    (self.channel_a_state = true →
       update_chnel_a self rx =
         ([Event.write bsA, Event.sleep100, Event.readlineEv], Except.ok (pyStrip s))) ∧
    (self.channel_b_state = true →
       update_chnel_b self rx =
         ([Event.write bsB, Event.sleep100, Event.readlineEv], Except.ok (pyStrip s))) ∧
    claimCommand "A" (some (PyFloat.mk "5.0")) (some (PyFloat.mk "0.01")) =
      "SEL_A; VSET 5.0; ISET 0.01;" ∧
    claimCommand "B" (some (PyFloat.mk "12.0")) none = "SEL_B; VSET 12.0;" ∧
    claimCommand "A" none none = "SEL_A;" ∧
    claimCommand "B" none none = "SEL_B;" := by
  refine ⟨fun h => ?_, fun h => ?_, rfl, rfl, rfl, rfl⟩
  · rw [update_chnel_a_on_cmd self rx h]
    exact send_cmd_connected self _ rx t bsA s hconn hA hrx
  · rw [update_chnel_b_on_cmd self rx h]
    exact send_cmd_connected self _ rx t bsB s hconn hB hrx

/-- A connected state with channel A enabled at 5.0 V / 0.01 A and channel B
enabled with only 12.0 V set. -/
def enabledAB : GrundigPN200 :=
  { serial := some 0
    channel_a_voltage := some (PyFloat.mk "5.0")
    channel_a_current := some (PyFloat.mk "0.01")
    channel_a_state := true
    channel_b_voltage := some (PyFloat.mk "12.0")
    channel_b_current := none
    channel_b_state := true }

/-- C2 witness: the claim's concrete examples, evaluated. -/
theorem C2_enabled_channel_command_witness :
    enabledAB.serial = some 0 ∧
    asciiDecode [79, 75] = some "OK" ∧
    asciiEncode
        (claimCommand "A" enabledAB.channel_a_voltage enabledAB.channel_a_current ++ "\n") =
      some (strBytes "SEL_A; VSET 5.0; ISET 0.01;\n") ∧
    asciiEncode
        (claimCommand "B" enabledAB.channel_b_voltage enabledAB.channel_b_current ++ "\n") =
      some (strBytes "SEL_B; VSET 12.0;\n") ∧
    enabledAB.channel_a_state = true ∧
    enabledAB.channel_b_state = true ∧
    update_chnel_a enabledAB [79, 75] =
      ([Event.write (strBytes "SEL_A; VSET 5.0; ISET 0.01;\n"), Event.sleep100,
        Event.readlineEv], Except.ok (pyStrip "OK")) ∧
    update_chnel_b enabledAB [79, 75] =
      ([Event.write (strBytes "SEL_B; VSET 12.0;\n"), Event.sleep100,
        Event.readlineEv], Except.ok (pyStrip "OK")) :=
  ⟨rfl, rfl, rfl, rfl, rfl, rfl,
   (C2_enabled_channel_command enabledAB 0 [79, 75] "OK"
      (strBytes "SEL_A; VSET 5.0; ISET 0.01;\n") (strBytes "SEL_B; VSET 12.0;\n")
      rfl rfl rfl rfl).1 rfl,
   (C2_enabled_channel_command enabledAB 0 [79, 75] "OK"
      (strBytes "SEL_A; VSET 5.0; ISET 0.01;\n") (strBytes "SEL_B; VSET 12.0;\n")
      rfl rfl rfl rfl).2.1 rfl⟩

/-- C3: round-trip — for every channel id and starting state, `channel_on`
followed by any sequence of `set_channel` stores for that channel and then
`channel_off` ends with the command `"SEL_<id>; VSET 0;"` (plus newline)
being sent, whatever voltage/current values were stored in between. -/
theorem C3_on_then_off_sends_vset_zero (self : GrundigPN200) (t : Nat)
    (updates : List (Option PyFloat × Option PyFloat)) (rx : List Nat) (s : String)
    (hconn : self.serial = some t) (hrx : asciiDecode rx = some s) :
    channel_a_off (run_sets_a { self with channel_a_state := true } updates) rx =
      ([Event.write (strBytes "SEL_A; VSET 0;\n"), Event.sleep100, Event.readlineEv],
       Except.ok
         ({ run_sets_a { self with channel_a_state := true } updates with
            channel_a_state := false }, pyStrip s)) ∧
    channel_b_off (run_sets_b { self with channel_b_state := true } updates) rx =
      ([Event.write (strBytes "SEL_B; VSET 0;\n"), Event.sleep100, Event.readlineEv],
       Except.ok
         ({ run_sets_b { self with channel_b_state := true } updates with
            channel_b_state := false }, pyStrip s)) := by
  constructor
  · have hser : ({ run_sets_a { self with channel_a_state := true } updates with
        channel_a_state := false } : GrundigPN200).serial = some t := by
      show (run_sets_a { self with channel_a_state := true } updates).serial = some t
      rw [run_sets_a_serial]
      exact hconn
    have h := (update_chnel_a_off_cmd
        { run_sets_a { self with channel_a_state := true } updates with
          channel_a_state := false } rx rfl).trans
      (send_cmd_connected _ "SEL_A; VSET 0;" rx t (strBytes "SEL_A; VSET 0;\n") s
        hser rfl hrx)
    show ((update_chnel_a { run_sets_a { self with channel_a_state := true } updates with
            channel_a_state := false } rx).1,
          (update_chnel_a { run_sets_a { self with channel_a_state := true } updates with
            channel_a_state := false } rx).2.map
            (fun resp =>
              ({ run_sets_a { self with channel_a_state := true } updates with
                 channel_a_state := false }, resp))) = _
    rw [h]
    rfl
  · have hser : ({ run_sets_b { self with channel_b_state := true } updates with
        channel_b_state := false } : GrundigPN200).serial = some t := by
      show (run_sets_b { self with channel_b_state := true } updates).serial = some t
      rw [run_sets_b_serial]
      exact hconn
    have h := (update_chnel_b_off_cmd
        { run_sets_b { self with channel_b_state := true } updates with
          channel_b_state := false } rx rfl).trans
      (send_cmd_connected _ "SEL_B; VSET 0;" rx t (strBytes "SEL_B; VSET 0;\n") s
        hser rfl hrx)
    show ((update_chnel_b { run_sets_b { self with channel_b_state := true } updates with
            channel_b_state := false } rx).1,
          (update_chnel_b { run_sets_b { self with channel_b_state := true } updates with
            channel_b_state := false } rx).2.map
            (fun resp =>
              ({ run_sets_b { self with channel_b_state := true } updates with
                 channel_b_state := false }, resp))) = _
    rw [h]
    rfl

/-- C3 witness: channel A turned on, set to 5.0 V / 0.01 A and then to unset
values, then turned off, at a concrete connected state. -/
theorem C3_on_then_off_sends_vset_zero_witness :
    connectedOff.serial = some 0 ∧
    asciiDecode [79, 75, 10] = some "OK\n" ∧
    (channel_a_off (run_sets_a { connectedOff with channel_a_state := true }
        [(some (PyFloat.mk "5.0"), some (PyFloat.mk "0.01")), (none, none)]) [79, 75, 10]).1 =
      [Event.write (strBytes "SEL_A; VSET 0;\n"), Event.sleep100, Event.readlineEv] :=
  ⟨rfl, rfl,
   congrArg Prod.fst
     ((C3_on_then_off_sends_vset_zero connectedOff 0
        [(some (PyFloat.mk "5.0"), some (PyFloat.mk "0.01")), (none, none)]
        [79, 75, 10] "OK\n" rfl rfl).1)⟩

/-- C4: `send_cmd` without an active transport fails with the `RuntimeError`
(`NotConnectedError`) and performs no write (its event trace is empty); with
an active transport it writes exactly the ASCII encoding of the command text
followed by a single newline, reads one line, and returns the decoded,
stripped line — the empty string when nothing was received before the
timeout (`rx = []`). -/
theorem C4_send_cmd_contract (self : GrundigPN200) (cmd : String) (rx : List Nat) :
    (self.serial = none →
       send_cmd self cmd rx =
         ([], Except.error (PyError.runtimeError "Serial port is not open"))) ∧
    (∀ t bs s, self.serial = some t → asciiEncode (cmd ++ "\n") = some bs →
       asciiDecode rx = some s →
       send_cmd self cmd rx =
         ([Event.write bs, Event.sleep100, Event.readlineEv], Except.ok (pyStrip s))) ∧
    (∀ t bs, self.serial = some t → asciiEncode (cmd ++ "\n") = some bs →
       send_cmd self cmd [] =
         ([Event.write bs, Event.sleep100, Event.readlineEv], Except.ok "")) := by
  refine ⟨fun h => ?_,
          fun t bs s h1 h2 h3 => send_cmd_connected self cmd rx t bs s h1 h2 h3,
          fun t bs h1 h2 => ?_⟩
  · unfold send_cmd
    rw [h]
  · rw [send_cmd_connected self cmd [] t bs "" h1 h2 rfl]
    rfl

/-- C4 witness: the disconnected initial state fails without writing; a
connected state with reply `b" OK \r\n"` returns `"OK"`; an empty reply
returns `""`. -/
theorem C4_send_cmd_contract_witness :
    initialState.serial = none ∧
    send_cmd initialState "OPER_IND" [79, 75] =
      ([], Except.error (PyError.runtimeError "Serial port is not open")) ∧
    connectedOff.serial = some 0 ∧
    asciiEncode ("OPER_IND" ++ "\n") = some (strBytes "OPER_IND\n") ∧
    asciiDecode [32, 79, 75, 32, 13, 10] = some " OK \r\n" ∧
    send_cmd connectedOff "OPER_IND" [32, 79, 75, 32, 13, 10] =
      ([Event.write (strBytes "OPER_IND\n"), Event.sleep100, Event.readlineEv],
       Except.ok (pyStrip " OK \r\n")) ∧
    send_cmd connectedOff "OPER_IND" [] =
      ([Event.write (strBytes "OPER_IND\n"), Event.sleep100, Event.readlineEv],
       Except.ok "") :=
  ⟨rfl,
   (C4_send_cmd_contract initialState "OPER_IND" [79, 75]).1 rfl,
   rfl, rfl, rfl,
   (C4_send_cmd_contract connectedOff "OPER_IND" [32, 79, 75, 32, 13, 10]).2.1
     0 (strBytes "OPER_IND\n") " OK \r\n" rfl rfl rfl,
   (C4_send_cmd_contract connectedOff "OPER_IND" []).2.2
     0 (strBytes "OPER_IND\n") rfl rfl⟩

/-- C5: `set_channel_a`/`set_channel_b` overwrite the channel's stored
voltage and current unconditionally (also with unset values), leave the
enabled flag and the `serial` slot unchanged, leave the other channel's
state unchanged, and then run the update (`apply_channel`) on exactly that
stored state, whose enabled flag is the one stored before the call. -/
theorem C5_set_channel_overwrites_and_applies (self : GrundigPN200)
    (v i : Option PyFloat) (rx : List Nat) :
    (set_channel_a self v i rx).1 = (update_chnel_a (set_channel_a_store self v i) rx).1 ∧
    (set_channel_a self v i rx).2 =
      (update_chnel_a (set_channel_a_store self v i) rx).2.map
        (fun resp => (set_channel_a_store self v i, resp)) ∧
    (set_channel_a_store self v i).channel_a_voltage = v ∧
    (set_channel_a_store self v i).channel_a_current = i ∧
    (set_channel_a_store self v i).channel_a_state = self.channel_a_state ∧
    (set_channel_a_store self v i).serial = self.serial ∧
    (set_channel_a_store self v i).channel_b_voltage = self.channel_b_voltage ∧
    (set_channel_a_store self v i).channel_b_current = self.channel_b_current ∧
    (set_channel_a_store self v i).channel_b_state = self.channel_b_state ∧
    (set_channel_b self v i rx).1 = (update_chnel_b (set_channel_b_store self v i) rx).1 ∧
    (set_channel_b self v i rx).2 =
      (update_chnel_b (set_channel_b_store self v i) rx).2.map
        (fun resp => (set_channel_b_store self v i, resp)) ∧
    (set_channel_b_store self v i).channel_b_voltage = v ∧
    (set_channel_b_store self v i).channel_b_current = i ∧
    (set_channel_b_store self v i).channel_b_state = self.channel_b_state ∧
    (set_channel_b_store self v i).serial = self.serial ∧
    (set_channel_b_store self v i).channel_a_voltage = self.channel_a_voltage ∧
    (set_channel_b_store self v i).channel_a_current = self.channel_a_current ∧
    (set_channel_b_store self v i).channel_a_state = self.channel_a_state :=
  ⟨rfl, rfl, rfl, rfl, rfl, rfl, rfl, rfl, rfl,
   rfl, rfl, rfl, rfl, rfl, rfl, rfl, rfl, rfl⟩

/-- C6: `set_independent_mode` does send exactly `OPER_IND` through
`send_cmd`, but the Python function body (source line 125) has no `return`
statement, so it returns `None` and discards the response — here evaluated
at a connected state whose device replies `b"OK\n"`: the function yields
Python `None` (`Except.ok ()`) while the underlying `send_cmd` call yields
the response `"OK"`.  This contradicts the function's own docstring
("returns the device response") and the claim. -/
theorem C6_set_independent_mode_discards_response :
    set_independent_mode connectedOff [79, 75, 10] =
      ([Event.write (strBytes "OPER_IND\n"), Event.sleep100, Event.readlineEv],
       Except.ok ()) ∧
    send_cmd connectedOff "OPER_IND" [79, 75, 10] =
      ([Event.write (strBytes "OPER_IND\n"), Event.sleep100, Event.readlineEv],
       Except.ok "OK") := by
  constructor <;> rfl

/-- C7: with an active transport, `set_remote` writes exactly the single
byte `0x09` and `set_local` exactly the single byte `0x01` — no newline and
no read; with no transport both fail with the `RuntimeError`
(`NotConnectedError`) without writing. -/
theorem C7_mode_control_bytes (self : GrundigPN200) :
    (∀ t, self.serial = some t →
       set_remote self = ([Event.write [9]], Except.ok ()) ∧
       set_local self = ([Event.write [1]], Except.ok ())) ∧
    (self.serial = none →
       set_remote self =
         ([], Except.error (PyError.runtimeError "Serial port is not open")) ∧
       set_local self =
         ([], Except.error (PyError.runtimeError "Serial port is not open"))) := by
  constructor
  · intro t h
    unfold set_remote set_local
    rw [h]
    exact ⟨rfl, rfl⟩
  · intro h
    unfold set_remote set_local
    rw [h]
    exact ⟨rfl, rfl⟩

/-- C7 witness: a connected state writes the control bytes; the initial
(disconnected) state raises. -/
theorem C7_mode_control_bytes_witness :
    (set_remote connectedOff = ([Event.write [9]], Except.ok ()) ∧
     set_local connectedOff = ([Event.write [1]], Except.ok ())) ∧
    (set_remote initialState =
       ([], Except.error (PyError.runtimeError "Serial port is not open")) ∧
     set_local initialState =
       ([], Except.error (PyError.runtimeError "Serial port is not open"))) :=
  ⟨(C7_mode_control_bytes connectedOff).1 0 rfl,
   (C7_mode_control_bytes initialState).2 rfl⟩

/-- C8: `connect_to` on a state with an active transport first attempts to
close it — whether that close raises (`closeFails`) changes neither the
result nor whether the open is attempted — then opens the new port.  On
success only the new transport is stored; on failure the
`SerialException` (`TransportError`) propagates, after the close attempt. -/
theorem C8_reconnect_closes_then_opens (self : GrundigPN200) (t : Nat)
    (comport : String) (baudrate : Nat) (closeFails : Bool)
    (openResult : Except Unit Nat) (hconn : self.serial = some t) :
    (∀ nt, openResult = Except.ok nt →
       connect_to self comport baudrate closeFails openResult =
         ([Event.closeAttempt t closeFails, Event.openPort comport baudrate nt,
           Event.printSerial nt],
          Except.ok { self with serial := some nt })) ∧
    (openResult = Except.error () →
       connect_to self comport baudrate closeFails openResult =
         ([Event.closeAttempt t closeFails], Except.error PyError.serialException)) := by
  constructor
  · intro nt h
    unfold connect_to
    rw [hconn, h]
    rfl
  · intro h
    unfold connect_to
    rw [hconn, h]

/-- C8 witness: reconnecting from a connected state, once with a failing
close and a successful open, once with a failing open. -/
theorem C8_reconnect_closes_then_opens_witness :
    connectedOff.serial = some 0 ∧
    connect_to connectedOff "COM4" 9600 true (Except.ok 7) =
      ([Event.closeAttempt 0 true, Event.openPort "COM4" 9600 7, Event.printSerial 7],
       Except.ok { connectedOff with serial := some 7 }) ∧
    connect_to connectedOff "COM4" 9600 false (Except.error ()) =
      ([Event.closeAttempt 0 false], Except.error PyError.serialException) :=
  ⟨rfl,
   (C8_reconnect_closes_then_opens connectedOff 0 "COM4" 9600 true
      (Except.ok 7) rfl).1 7 rfl,
   (C8_reconnect_closes_then_opens connectedOff 0 "COM4" 9600 false
      (Except.error ()) rfl).2 rfl⟩

/-- C9 (implicit): on the fresh class-attribute state the transport slot is
empty, and the constructor calls `set_remote` first, so `__init__` raises
the `RuntimeError` immediately: its event trace is empty (no close, no open,
no write), i.e. `connect_to` is never reached, for every port, baud rate,
environment behaviour and device reply. -/
theorem C9_constructor_raises_before_connecting (comport : String) (baudrate : Nat)
    (closeFails : Bool) (openResult : Except Unit Nat) (rxInd : List Nat) :
    grundig_init comport baudrate closeFails openResult rxInd =
      ([], Except.error (PyError.runtimeError "Serial port is not open")) := rfl

/-- C10 (implicit): the stored class-attribute channel state is
voltage `0.0`, current `0.0`, enabled `false` for both channels — set
numeric values, not unset — so after connecting (which does not touch the
channel attributes) the first `channel_on` without any prior `set_channel`
sends `"SEL_<id>; VSET 0.0; ISET 0.0;"` plus newline, not the bare
`"SEL_<id>;"` used for unset values. -/
theorem C10_initial_state_first_channel_on (t : Nat) (comport : String)
    (baudrate : Nat) (closeFails : Bool) (rx : List Nat) (s : String)
    (hrx : asciiDecode rx = some s) :
    initialState.channel_a_voltage = some (PyFloat.mk "0.0") ∧
    initialState.channel_a_current = some (PyFloat.mk "0.0") ∧
    initialState.channel_a_state = false ∧
    initialState.channel_b_voltage = some (PyFloat.mk "0.0") ∧
    initialState.channel_b_current = some (PyFloat.mk "0.0") ∧
    initialState.channel_b_state = false ∧
    connect_to initialState comport baudrate closeFails (Except.ok t) =
      ([Event.openPort comport baudrate t, Event.printSerial t],
       Except.ok { initialState with serial := some t }) ∧
    channel_a_on { initialState with serial := some t } rx =
      ([Event.write (strBytes "SEL_A; VSET 0.0; ISET 0.0;\n"), Event.sleep100,
        Event.readlineEv],
       Except.ok ({ initialState with serial := some t, channel_a_state := true },
         pyStrip s)) ∧
    channel_b_on { initialState with serial := some t } rx =
      ([Event.write (strBytes "SEL_B; VSET 0.0; ISET 0.0;\n"), Event.sleep100,
        Event.readlineEv],
       Except.ok ({ initialState with serial := some t, channel_b_state := true },
         pyStrip s)) ∧
    claimCommand "A" initialState.channel_a_voltage initialState.channel_a_current =
      "SEL_A; VSET 0.0; ISET 0.0;" ∧
    claimCommand "B" initialState.channel_b_voltage initialState.channel_b_current =
      "SEL_B; VSET 0.0; ISET 0.0;" ∧
    "SEL_A; VSET 0.0; ISET 0.0;" ≠ "SEL_A;" ∧
    "SEL_B; VSET 0.0; ISET 0.0;" ≠ "SEL_B;" := by
  refine ⟨rfl, rfl, rfl, rfl, rfl, rfl, rfl, ?_, ?_, rfl, rfl, by decide, by decide⟩
  · have hA := (update_chnel_a_on_cmd
        { initialState with serial := some t, channel_a_state := true } rx rfl).trans
      (send_cmd_connected { initialState with serial := some t, channel_a_state := true }
        _ rx t (strBytes "SEL_A; VSET 0.0; ISET 0.0;\n") s rfl rfl hrx)
    show ((update_chnel_a
            { initialState with serial := some t, channel_a_state := true } rx).1,
          (update_chnel_a
            { initialState with serial := some t, channel_a_state := true } rx).2.map
            (fun resp =>
              ({ initialState with serial := some t, channel_a_state := true }, resp))) = _
    rw [hA]
    rfl
  · have hB := (update_chnel_b_on_cmd
        { initialState with serial := some t, channel_b_state := true } rx rfl).trans
      (send_cmd_connected { initialState with serial := some t, channel_b_state := true }
        _ rx t (strBytes "SEL_B; VSET 0.0; ISET 0.0;\n") s rfl rfl hrx)
    show ((update_chnel_b
            { initialState with serial := some t, channel_b_state := true } rx).1,
          (update_chnel_b
            { initialState with serial := some t, channel_b_state := true } rx).2.map
            (fun resp =>
              ({ initialState with serial := some t, channel_b_state := true }, resp))) = _
    rw [hB]
    rfl

/-- C10 witness: the first `channel_a_on` on the connected defaults, with the
device replying `b"OK\n"`, evaluated concretely. -/
theorem C10_initial_state_first_channel_on_witness :
    asciiDecode [79, 75, 10] = some "OK\n" ∧
    channel_a_on { initialState with serial := some 1 } [79, 75, 10] =
      ([Event.write (strBytes "SEL_A; VSET 0.0; ISET 0.0;\n"), Event.sleep100,
        Event.readlineEv],
       Except.ok ({ initialState with serial := some 1, channel_a_state := true },
         pyStrip "OK\n")) :=
  ⟨rfl,
   (C10_initial_state_first_channel_on 1 "COM3" 9600 false [79, 75, 10] "OK\n"
      rfl).2.2.2.2.2.2.2.1⟩
